import Mathlib

/-!
Shallow embedding of the 21-day Python learning tracker.

Sources: src/curriculum.py and src/app.py are embedded directly.  The
progress data-store module (data_handler.py / utils.py) is imported by
src/app.py but its source is not in the repository snapshot, so its
operations are modelled from the spec (each such definition carries a
doc comment saying so).  Dates are modelled as integers (a day index on
an abstract calendar); JSON day keys, which the file stores as strings
of integers, are modelled as naturals.
-/

namespace PyTracker

/-- Per-day progress record: the value of progress[day] in the JSON
document, with completion_date as an abstract calendar day index. -/
structure DayProgress where
  completed : Bool
  completion_date : Option Int
  time_spent_minutes : Nat
deriving Repr, DecidableEq

/-- Upload record: the value of uploads[day] in the JSON document. -/
structure Upload where
  filename : String
  upload_time : String
deriving Repr, DecidableEq

/-- Python dict assignment on an association list keyed by day number:
replace the binding if the key is present, else append it. -/
def alSet {α : Type} : List (Nat × α) → Nat → α → List (Nat × α)
  | [], k, v => [(k, v)]
  | (k', v') :: t, k, v =>
      if k' = k then (k, v) :: t else (k', v') :: alSet t k v

/-- The persisted ProgressDocument: five mappings keyed by day number. -/
structure ProgressDocument where
  progress : List (Nat × DayProgress)
  notes : List (Nat × String)
  uploads : List (Nat × Upload)
  time_spent : List (Nat × Nat)
  resources_used : List (Nat × List String)
deriving Repr, DecidableEq

/-- A raw on-disk document as parsed: each of the five top-level keys
may be missing (or invalid), modelled as an Option. -/
structure RawDocument where
  progress : Option (List (Nat × DayProgress))
  notes : Option (List (Nat × String))
  uploads : Option (List (Nat × Upload))
  time_spent : Option (List (Nat × Nat))
  resources_used : Option (List (Nat × List String))
deriving Repr, DecidableEq

/-- Modelled from the spec: the repair-on-read step of load() in the
missing data_handler module substitutes an empty mapping for any
missing or invalid top-level key. -/
def repairDocument (r : RawDocument) : ProgressDocument :=
  ⟨r.progress.getD [], r.notes.getD [], r.uploads.getD [],
   r.time_spent.getD [], r.resources_used.getD []⟩

/-- Serialization of an in-memory document back to the on-disk shape:
all five keys are written. -/
def toRaw (d : ProgressDocument) : RawDocument :=
  ⟨some d.progress, some d.notes, some d.uploads,
   some d.time_spent, some d.resources_used⟩

/-- Modelled from the spec: load_data() of the missing data_handler
module reads the backing file, repairs any missing top-level key in
place, and persists the repaired document immediately.  The result is
the loaded document together with the new contents of the backing
file. -/
def load_data (r : RawDocument) : ProgressDocument × RawDocument :=
  (repairDocument r, toRaw (repairDocument r))

/-- Error taxonomy of the store: a day number outside [1,21] signals
InvalidDayError. -/
inductive StoreError where
  | invalidDayError
deriving Repr, DecidableEq

/-- Day-range check: valid day numbers are 1..21. -/
def validDay (d : Nat) : Bool := decide (1 ≤ d) && decide (d ≤ 21)

/-- Modelled from the spec: a day absent from the progress mapping is
treated as not started (completed=false, time_spent_minutes=0). -/
def getDayProgress (doc : ProgressDocument) (d : Nat) : DayProgress :=
  (doc.progress.lookup d).getD ⟨false, none, 0⟩

/-- Modelled from the spec: mark_day_complete(day, completed) of the
missing data_handler module sets progress[day].completed; when
transitioning to true it stamps completion_date with the current date
(passed here as the parameter today); transitioning to false leaves
the prior completion_date untouched.  A day outside [1,21] raises
InvalidDayError. -/
def mark_day_complete (today : Int) (d : Nat) (c : Bool)
    (doc : ProgressDocument) : Except StoreError ProgressDocument :=
  if validDay d then
    let p := getDayProgress doc d
    let date := if c && !p.completed then some today else p.completion_date
    Except.ok { doc with
      progress := alSet doc.progress d ⟨c, date, p.time_spent_minutes⟩ }
  else Except.error StoreError.invalidDayError

/-- Modelled from the spec: update_time_spent(day, hours, minutes) of
the missing data_handler module overwrites
progress[day].time_spent_minutes with hours*60 + minutes, clamping
negative inputs to 0 (Int.toNat clamps negatives) and never raising
for out-of-range numeric input.  A day outside [1,21] raises
InvalidDayError. -/
def update_time_spent (d : Nat) (hours minutes : Int)
    (doc : ProgressDocument) : Except StoreError ProgressDocument :=
  if validDay d then
    let p := getDayProgress doc d
    Except.ok { doc with
      progress := alSet doc.progress d
        ⟨p.completed, p.completion_date, hours.toNat * 60 + minutes.toNat⟩ }
  else Except.error StoreError.invalidDayError

/-- Modelled from the spec: save_note(day, text) of the missing
data_handler module overwrites notes[day] with the given text. -/
def save_note (d : Nat) (text : String)
    (doc : ProgressDocument) : Except StoreError ProgressDocument :=
  if validDay d then
    Except.ok { doc with notes := alSet doc.notes d text }
  else Except.error StoreError.invalidDayError

/-- Modelled from the spec: get_note(day) returns the stored note, or
the empty string when none is stored. -/
def get_note (d : Nat) (doc : ProgressDocument) : Except StoreError String :=
  if validDay d then
    Except.ok ((doc.notes.lookup d).getD "")
  else Except.error StoreError.invalidDayError

/-- The resource-name list stored for a day (empty if none). -/
def resourcesFor (doc : ProgressDocument) (d : Nat) : List String :=
  (doc.resources_used.lookup d).getD []

/-- Modelled from the spec: mark_resource_used(day, resource_name) of
the missing data_handler module appends the name to
resources_used[day] only if it is absent. -/
def mark_resource_used (d : Nat) (r : String)
    (doc : ProgressDocument) : Except StoreError ProgressDocument :=
  if validDay d then
    let l := resourcesFor doc d
    if r ∈ l then Except.ok doc
    else Except.ok { doc with resources_used := alSet doc.resources_used d (l ++ [r]) }
  else Except.error StoreError.invalidDayError

/-- The companion removal operation, embedded from the inline code in
show_day_tracker in src/app.py: when the name is present in the stored
list it is removed (Python list.remove drops the first occurrence) and
the document saved; otherwise nothing is written. -/
def unmark_resource_used (d : Nat) (r : String)
    (doc : ProgressDocument) : Except StoreError ProgressDocument :=
  if validDay d then
    let l := resourcesFor doc d
    if r ∈ l then
      Except.ok { doc with resources_used := alSet doc.resources_used d (l.erase r) }
    else Except.ok doc
  else Except.error StoreError.invalidDayError

/-- Modelled from the spec: resources_used_for(day) returns the set of
resource names marked used for the day (empty if none); a day outside
[1,21] raises InvalidDayError. -/
def resources_used_for (d : Nat)
    (doc : ProgressDocument) : Except StoreError (List String) :=
  if validDay d then Except.ok (resourcesFor doc d)
  else Except.error StoreError.invalidDayError

/-- The persisted document after a read-modify-write call: a failed
mutator performs no save, so the backing file keeps the old document. -/
def applyMutator (f : ProgressDocument → Except StoreError ProgressDocument)
    (doc : ProgressDocument) : ProgressDocument :=
  match f doc with
  | Except.ok d => d
  | Except.error _ => doc

/-- The curriculum day range 1..21. -/
def dayRange : List Nat := (List.range 21).map (· + 1)

/-- Whether a given day is completed in the document. -/
def completedOn (doc : ProgressDocument) (d : Nat) : Bool :=
  (getDayProgress doc d).completed

/-- Number of days in 1..21 with completed=true. -/
def countCompleted (doc : ProgressDocument) : Nat :=
  (dayRange.filter (fun d => completedOn doc d)).length

/-- Modelled from the spec: completion_percentage() of the missing
data_handler module is (count of days with completed=true) / 21 * 100
as a real-valued fraction, modelled over the rationals. -/
def completion_percentage (doc : ProgressDocument) : ℚ :=
  (countCompleted doc : ℚ) / 21 * 100

/-- Scan days d, d+1, ... while they are completed, for at most fuel
steps; returns the first incomplete day, or 22 once the range is
exhausted. -/
def cdGo (doc : ProgressDocument) : Nat → Nat → Nat
  | _, 0 => 22
  | d, fuel + 1 => if completedOn doc d then cdGo doc (d + 1) fuel else d

/-- Modelled from the spec: current_day() of the missing utils module
is the lowest day number in 1..21 with completed=false, or 22 when all
21 days are complete. -/
def current_day (doc : ProgressDocument) : Nat := cdGo doc 1 21

/-- All completion_date values recorded in the document. -/
def completionDates (doc : ProgressDocument) : List Int :=
  doc.progress.filterMap (fun p => p.2.completion_date)

/-- Whether at least one recorded completion_date equals the given
calendar day. -/
def hasCompletionOn (doc : ProgressDocument) (day : Int) : Bool :=
  (completionDates doc).contains day

/-- Walk backward one calendar day at a time while some completion_date
matches, counting the matched days, for at most fuel steps. -/
def streakGo (doc : ProgressDocument) : Nat → Int → Nat
  | 0, _ => 0
  | fuel + 1, day =>
      if hasCompletionOn doc day then streakGo doc fuel (day - 1) + 1 else 0

/-- Modelled from the spec: learning_streak() of the missing utils
module counts consecutive calendar days, walking backward from today,
for which at least one completion_date equals that calendar date,
stopping at the first date with no match.  The walk needs at most one
step per recorded completion date, so one extra step of fuel is
enough. -/
def learning_streak (doc : ProgressDocument) (today : Int) : Nat :=
  streakGo doc ((completionDates doc).length + 1) today

/-- The file contents written by src/app.py when the backing file is
missing: the five empty mappings. -/
def emptyRaw : RawDocument := ⟨some [], some [], some [], some [], some []⟩

/-- Embedded from the top level of src/app.py (the DATA_FILE block):
if the backing file does not exist, write a document with the five
empty mappings; otherwise leave the file alone.  The file system is
modelled as an optional file contents. -/
def ensure_data_file : Option RawDocument → Option RawDocument
  | none => some emptyRaw
  | some r => some r

/-- Modelled from the spec: initialize() of the missing data_handler
module creates the backing file with the five empty mappings when it
does not exist, and otherwise leaves it unchanged. -/
def initialize_data : Option RawDocument → Option RawDocument
  | none => some emptyRaw
  | some r => some r

/-- A curriculum resource: either a plain name or a name-url pair, the
two shapes the catalog interface permits. -/
inductive Resource where
  | plain (s : String)
  | link (s url : String)
deriving Repr, DecidableEq

/-- Whether a resource is of the name-url pair form; embeds the branch
condition isinstance(resource, dict) and url in resource used by the
consumer code in src/app.py. -/
def Resource.hasUrl : Resource → Bool
  | Resource.plain _ => false
  | Resource.link _ _ => true

/-- One day record of the curriculum, from src/curriculum.py. -/
structure CurriculumDay where
  day : Nat
  topic : String
  resources : List Resource
  practice : String
deriving Repr, DecidableEq

/-- One week record of the curriculum, from src/curriculum.py. -/
structure CurriculumWeek where
  week : Nat
  title : String
  days : List CurriculumDay
deriving Repr, DecidableEq

/-- Embedded from get_curriculum_data in src/curriculum.py: the full
static 21-day curriculum. -/
def get_curriculum_data : List CurriculumWeek :=
  [ { week := 1, title := "Python Basics", days :=
      [ { day := 1, topic := "Variables & Data Types",
          resources := [Resource.plain "W3Schools", Resource.plain "Mosh\x27s Video"],
          practice := "Write a script to store and print your name, age, and favorite number." },
        { day := 2, topic := "Operators & Expressions",
          resources := [Resource.plain "Programiz", Resource.plain "Corey Schafer\x27s Video"],
          practice := "Write a calculator that adds, subtracts, multiplies, and divides two numbers." },
        { day := 3, topic := "If Statements & Conditions",
          resources := [Resource.plain "Real Python", Resource.plain "freeCodeCamp Video"],
          practice := "Create a program that checks if a number is positive, negative, or zero." },
        { day := 4, topic := "Loops (for, while)",
          resources := [Resource.plain "W3Schools Loops", Resource.plain "CS Dojo Video"],
          practice := "Print numbers from 1-10 using a loop. Print even numbers only." },
        { day := 5, topic := "Functions",
          resources := [Resource.plain "Python Functions (Programiz)", Resource.plain "Mosh\x27s Video"],
          practice := "Write a function that takes a number and returns its square." },
        { day := 6, topic := "Lists & Strings",
          resources := [Resource.plain "W3Schools Lists", Resource.plain "Corey Schafer\x27s Video"],
          practice := "Reverse a string and find the largest number in a list." },
        { day := 7, topic := "Mini Project (Basics)",
          resources := [Resource.plain "Use Replit to code"],
          practice := "Build a basic calculator or a number guessing game." } ] },
    { week := 2, title := "Intermediate Python", days :=
      [ { day := 8, topic := "Dictionaries & Sets",
          resources := [Resource.plain "W3Schools Dictionaries", Resource.plain "Corey Schafer Video"],
          practice := "Count word frequency in a sentence using a dictionary." },
        { day := 9, topic := "File Handling",
          resources := [Resource.plain "Programiz", Resource.plain "Mosh\x27s Video"],
          practice := "Read a file and count how many lines it has." },
        { day := 10, topic := "Error Handling (try-except)",
          resources := [Resource.plain "Real Python", Resource.plain "freeCodeCamp Video"],
          practice := "Create a program that handles division by zero errors." },
        { day := 11, topic := "Modules (math, random)",
          resources := [Resource.plain "Python Modules Guide", Resource.plain "Mosh\x27s Video"],
          practice := "Generate a random password using random module." },
        { day := 12, topic := "OOP Basics (Classes & Objects)",
          resources := [Resource.plain "Real Python", Resource.plain "Mosh\x27s Video"],
          practice := "Create a Car class with attributes like brand and speed." },
        { day := 13, topic := "APIs & JSON",
          resources := [Resource.plain "Requests Library (Real Python)", Resource.plain "Corey Schafer Video"],
          practice := "Fetch weather data from an API and display it." },
        { day := 14, topic := "Mini Project",
          resources := [Resource.plain "Use Replit or Jupyter Notebook"],
          practice := "Build a To-Do List App or Weather App using API." } ] },
    { week := 3, title := "Advanced & Final Project", days :=
      [ { day := 15, topic := "Recap & Debugging",
          resources := [Resource.plain "Use Pythontutor to visualize code execution"],
          practice := "Debug old programs and improve efficiency." },
        { day := 16, topic := "Data Structures (Stacks, Queues)",
          resources := [Resource.plain "Real Python"],
          practice := "Implement a simple stack and queue in Python." },
        { day := 17, topic := "Algorithms (Sorting & Searching)",
          resources := [Resource.plain "Khan Academy"],
          practice := "Implement Bubble Sort and Binary Search." },
        { day := 18, topic := "Python Libraries (pandas, matplotlib)",
          resources := [Resource.plain "Pandas Docs", Resource.plain "Matplotlib Tutorial"],
          practice := "Read a CSV file using Pandas and create a basic graph." },
        { day := 19, topic := "Final Project Brainstorming",
          resources := [Resource.plain "Use Google Colab"],
          practice := "Plan a final project (Choose from ideas below)." },
        { day := 20, topic := "Final Project (Day 1)",
          resources := [Resource.plain "Use Replit or Jupyter Notebook"],
          practice := "Build a project like: Password Manager, Budget Tracker, or Simple Game." },
        { day := 21, topic := "Final Project (Day 2)",
          resources := [Resource.plain "Use Replit or Jupyter Notebook"],
          practice := "Complete your final project and showcase it." } ] } ]

/-- Embedded from get_days_count in src/curriculum.py. -/
def get_days_count : Nat := 21

/-- Embedded from get_week_count in src/curriculum.py. -/
def get_week_count : Nat := 3

/-- All day records of the catalog, in the order listed. -/
def allCurriculumDays : List CurriculumDay :=
  (get_curriculum_data.map CurriculumWeek.days).flatten

/-! Helper lemmas -/

lemma lookup_alSet_self {α : Type} (l : List (Nat × α)) (k : Nat) (v : α) :
    (alSet l k v).lookup k = some v := by
  induction l with
  | nil => simp [alSet, List.lookup]
  | cons hd t ih =>
      obtain ⟨k', v'⟩ := hd
      by_cases hk : k' = k
      · subst hk
        simp [alSet, List.lookup]
      · have hbeq : (k == k') = false := beq_eq_false_iff_ne.mpr (Ne.symm hk)
        simp [alSet, hk, List.lookup, hbeq, ih]

lemma lookup_alSet_ne {α : Type} (l : List (Nat × α)) (k : Nat) (v : α)
    (j : Nat) (h : j ≠ k) : (alSet l k v).lookup j = l.lookup j := by
  have hbeq : (j == k) = false := beq_eq_false_iff_ne.mpr h
  induction l with
  | nil => simp [alSet, List.lookup, hbeq]
  | cons hd t ih =>
      obtain ⟨k', v'⟩ := hd
      by_cases hk : k' = k
      · subst hk
        simp [alSet, List.lookup, hbeq]
      · simp [alSet, hk, List.lookup, ih]

lemma getDayProgress_alSet_self (doc : ProgressDocument) (d : Nat) (p : DayProgress) :
    getDayProgress { doc with progress := alSet doc.progress d p } d = p := by
  simp [getDayProgress, lookup_alSet_self]

lemma getDayProgress_alSet_ne (doc : ProgressDocument) (d j : Nat) (p : DayProgress)
    (h : j ≠ d) :
    getDayProgress { doc with progress := alSet doc.progress d p } j =
      getDayProgress doc j := by
  simp [getDayProgress, lookup_alSet_ne _ _ _ _ h]

lemma resourcesFor_alSet_self (doc : ProgressDocument) (d : Nat) (l : List String) :
    resourcesFor { doc with resources_used := alSet doc.resources_used d l } d = l := by
  simp [resourcesFor, lookup_alSet_self]

lemma mem_dayRange {d : Nat} : d ∈ dayRange ↔ 1 ≤ d ∧ d ≤ 21 := by
  constructor
  · rintro hmem
    simp only [dayRange, List.mem_map, List.mem_range] at hmem
    obtain ⟨a, ha, rfl⟩ := hmem
    omega
  · rintro ⟨h1, h2⟩
    simp only [dayRange, List.mem_map, List.mem_range]
    exact ⟨d - 1, by omega, by omega⟩

lemma validDay_true {d : Nat} (h1 : 1 ≤ d) (h2 : d ≤ 21) : validDay d = true := by
  simp [validDay]
  omega

lemma validDay_false {d : Nat} (h : d < 1 ∨ 21 < d) : validDay d = false := by
  simp [validDay]
  omega

/-! Claim theorems -/

/-- Claim C1: loading a stored document that is missing one or more of
the five top-level keys yields a document with all five keys present,
keeps every key-value pair that was present, persists the repaired
document immediately, and a second load makes no further changes. -/
theorem load_repair_idempotent (r : RawDocument)
    (_hmiss : r.progress = none ∨ r.notes = none ∨ r.uploads = none ∨
      r.time_spent = none ∨ r.resources_used = none) :
    ((load_data r).2.progress.isSome = true ∧ (load_data r).2.notes.isSome = true ∧
      (load_data r).2.uploads.isSome = true ∧ (load_data r).2.time_spent.isSome = true ∧
      (load_data r).2.resources_used.isSome = true)
    ∧ (∀ m, r.progress = some m → (load_data r).1.progress = m)
    ∧ (∀ m, r.notes = some m → (load_data r).1.notes = m)
    ∧ (∀ m, r.uploads = some m → (load_data r).1.uploads = m)
    ∧ (∀ m, r.time_spent = some m → (load_data r).1.time_spent = m)
    ∧ (∀ m, r.resources_used = some m → (load_data r).1.resources_used = m)
    ∧ (load_data r).2 = toRaw (load_data r).1
    ∧ load_data (load_data r).2 = load_data r := by
  refine ⟨⟨rfl, rfl, rfl, rfl, rfl⟩, ?_, ?_, ?_, ?_, ?_, rfl, rfl⟩ <;>
    (intro m h; simp [load_data, repairDocument, h])

theorem load_repair_idempotent_witness :
    ((load_data ⟨none, some [], some [], some [], some []⟩).2.progress.isSome = true)
    ∧ load_data (load_data ⟨none, some [], some [], some [], some []⟩).2 =
        load_data ⟨none, some [], some [], some [], some []⟩ := by
  have h := load_repair_idempotent ⟨none, some [], some [], some [], some []⟩ (Or.inl rfl)
  exact ⟨h.1.1, h.2.2.2.2.2.2.2⟩

/-- Claim C2: for every day number outside [1,21], every store
operation taking a day argument raises InvalidDayError (never clamps)
and the persisted document is unchanged after the failed call. -/
theorem invalid_day_rejection (doc : ProgressDocument) (today : Int) (d : Nat)
    (c : Bool) (hours minutes : Int) (r text : String)
    (hd : d < 1 ∨ 21 < d) :
    mark_day_complete today d c doc = Except.error StoreError.invalidDayError
    ∧ update_time_spent d hours minutes doc = Except.error StoreError.invalidDayError
    ∧ save_note d text doc = Except.error StoreError.invalidDayError
    ∧ get_note d doc = Except.error StoreError.invalidDayError
    ∧ mark_resource_used d r doc = Except.error StoreError.invalidDayError
    ∧ unmark_resource_used d r doc = Except.error StoreError.invalidDayError
    ∧ resources_used_for d doc = Except.error StoreError.invalidDayError
    ∧ applyMutator (mark_day_complete today d c) doc = doc
    ∧ applyMutator (update_time_spent d hours minutes) doc = doc := by
  have hv : validDay d = false := validDay_false hd
  refine ⟨?_, ?_, ?_, ?_, ?_, ?_, ?_, ?_, ?_⟩ <;>
    simp [mark_day_complete, update_time_spent, save_note, get_note,
      mark_resource_used, unmark_resource_used, resources_used_for,
      applyMutator, hv]

theorem invalid_day_rejection_witness :
    mark_day_complete 0 0 true ⟨[], [], [], [], []⟩ =
      Except.error StoreError.invalidDayError
    ∧ mark_day_complete 0 22 true ⟨[], [], [], [], []⟩ =
      Except.error StoreError.invalidDayError
    ∧ applyMutator (mark_day_complete 0 0 true) ⟨[], [], [], [], []⟩ =
      (⟨[], [], [], [], []⟩ : ProgressDocument)
    ∧ applyMutator (mark_day_complete 0 22 true) ⟨[], [], [], [], []⟩ =
      (⟨[], [], [], [], []⟩ : ProgressDocument) :=
  ⟨(invalid_day_rejection ⟨[], [], [], [], []⟩ 0 0 true 0 0 "" "" (Or.inl (by decide))).1,
   (invalid_day_rejection ⟨[], [], [], [], []⟩ 0 22 true 0 0 "" "" (Or.inr (by decide))).1,
   (invalid_day_rejection ⟨[], [], [], [], []⟩ 0 0 true 0 0 "" ""
      (Or.inl (by decide))).2.2.2.2.2.2.2.1,
   (invalid_day_rejection ⟨[], [], [], [], []⟩ 0 22 true 0 0 "" ""
      (Or.inr (by decide))).2.2.2.2.2.2.2.1⟩

/-- Claim C8: when no backing file exists, initialization creates one
containing exactly the five empty mappings; when the backing file
exists, initialization leaves its contents unchanged. -/
theorem initialize_creates_empty_document :
    ensure_data_file none = some emptyRaw
    ∧ emptyRaw = ⟨some [], some [], some [], some [], some []⟩
    ∧ (∀ r : RawDocument, ensure_data_file (some r) = some r)
    ∧ (∀ r : RawDocument, initialize_data (some r) = some r)
    ∧ initialize_data none = some emptyRaw
    ∧ (∀ f, initialize_data (ensure_data_file f) = ensure_data_file f) := by
  refine ⟨rfl, rfl, fun r => rfl, fun r => rfl, rfl, fun f => ?_⟩
  cases f <;> rfl

/-- Claim C9: the Curriculum Catalog reports 21 days and 3 weeks, and
its data holds exactly 21 day records numbered 1..21 in ascending
order, split into 3 weeks of 7 days each (days 1-7, 8-14, 15-21),
every day carrying a topic, a practice description, and a non-empty
resource list. -/
theorem curriculum_structure :
    get_days_count = 21 ∧ get_week_count = 3
    ∧ get_curriculum_data.map CurriculumWeek.week = [1, 2, 3]
    ∧ get_curriculum_data.map (fun w => w.days.map CurriculumDay.day) =
        [[1, 2, 3, 4, 5, 6, 7], [8, 9, 10, 11, 12, 13, 14],
         [15, 16, 17, 18, 19, 20, 21]]
    ∧ allCurriculumDays.map CurriculumDay.day = (List.range 21).map (· + 1)
    ∧ (allCurriculumDays.all fun d =>
        !d.resources.isEmpty && !(d.topic == "") && !(d.practice == "")) = true := by
  refine ⟨rfl, rfl, rfl, rfl, by decide, by decide⟩

/-- Claim C10: every resource of every catalog day is a plain string
name; the name-url pair form never occurs, so the consumer branch in
src/app.py that renders a url is never taken on catalog data. -/
theorem curriculum_resources_plain :
    (allCurriculumDays.all fun d => d.resources.all fun r => !r.hasUrl) = true := by
  decide

lemma countCompleted_le (doc : ProgressDocument) : countCompleted doc ≤ 21 := by
  have h := List.length_filter_le (fun d => completedOn doc d) dayRange
  have hlen : dayRange.length = 21 := by simp [dayRange]
  simpa [countCompleted, hlen] using h

lemma toNat_max_zero (i : Int) : (max i 0).toNat = i.toNat := by
  rcases le_total i 0 with h | h
  · rw [max_eq_right h, Int.toNat_of_nonpos h]
    rfl
  · rw [max_eq_left h]

/-- Claim C3: completion_percentage equals the completed-day count
divided by 21 times 100, lies in [0,100], is exactly 100 with all 21
days completed and exactly 0 with none. -/
theorem completion_percentage_bounds (doc : ProgressDocument) :
    completion_percentage doc = (countCompleted doc : ℚ) / 21 * 100
    ∧ 0 ≤ completion_percentage doc
    ∧ completion_percentage doc ≤ 100
    ∧ ((∀ d ∈ dayRange, completedOn doc d = true) → completion_percentage doc = 100)
    ∧ ((∀ d ∈ dayRange, completedOn doc d = false) → completion_percentage doc = 0) := by
  refine ⟨rfl, ?_, ?_, ?_, ?_⟩
  · unfold completion_percentage
    positivity
  · unfold completion_percentage
    have hc : (countCompleted doc : ℚ) ≤ 21 := by
      exact_mod_cast countCompleted_le doc
    calc (countCompleted doc : ℚ) / 21 * 100 ≤ 21 / 21 * 100 := by gcongr
      _ = 100 := by norm_num
  · intro hall
    have hfil : dayRange.filter (fun d => completedOn doc d) = dayRange :=
      List.filter_eq_self.mpr (fun a ha => by simpa using hall a ha)
    have hcount : countCompleted doc = 21 := by
      unfold countCompleted
      rw [hfil]
      simp [dayRange]
    rw [completion_percentage, hcount]
    norm_num
  · intro hnone
    have hfil : dayRange.filter (fun d => completedOn doc d) = [] :=
      List.filter_eq_nil_iff.mpr (fun a ha => by simp [hnone a ha])
    have hcount : countCompleted doc = 0 := by
      unfold countCompleted
      rw [hfil]
      rfl
    rw [completion_percentage, hcount]
    norm_num

theorem completion_percentage_bounds_witness :
    completion_percentage
      ⟨[(1, ⟨true, none, 0⟩), (2, ⟨true, none, 0⟩), (3, ⟨true, none, 0⟩),
        (4, ⟨true, none, 0⟩), (5, ⟨true, none, 0⟩), (6, ⟨true, none, 0⟩),
        (7, ⟨true, none, 0⟩), (8, ⟨true, none, 0⟩), (9, ⟨true, none, 0⟩),
        (10, ⟨true, none, 0⟩), (11, ⟨true, none, 0⟩), (12, ⟨true, none, 0⟩),
        (13, ⟨true, none, 0⟩), (14, ⟨true, none, 0⟩), (15, ⟨true, none, 0⟩),
        (16, ⟨true, none, 0⟩), (17, ⟨true, none, 0⟩), (18, ⟨true, none, 0⟩),
        (19, ⟨true, none, 0⟩), (20, ⟨true, none, 0⟩), (21, ⟨true, none, 0⟩)],
       [], [], [], []⟩ = 100
    ∧ completion_percentage ⟨[], [], [], [], []⟩ = 0 :=
  ⟨(completion_percentage_bounds
      ⟨[(1, ⟨true, none, 0⟩), (2, ⟨true, none, 0⟩), (3, ⟨true, none, 0⟩),
        (4, ⟨true, none, 0⟩), (5, ⟨true, none, 0⟩), (6, ⟨true, none, 0⟩),
        (7, ⟨true, none, 0⟩), (8, ⟨true, none, 0⟩), (9, ⟨true, none, 0⟩),
        (10, ⟨true, none, 0⟩), (11, ⟨true, none, 0⟩), (12, ⟨true, none, 0⟩),
        (13, ⟨true, none, 0⟩), (14, ⟨true, none, 0⟩), (15, ⟨true, none, 0⟩),
        (16, ⟨true, none, 0⟩), (17, ⟨true, none, 0⟩), (18, ⟨true, none, 0⟩),
        (19, ⟨true, none, 0⟩), (20, ⟨true, none, 0⟩), (21, ⟨true, none, 0⟩)],
       [], [], [], []⟩).2.2.2.1 (by decide),
   (completion_percentage_bounds ⟨[], [], [], [], []⟩).2.2.2.2 (by decide)⟩

/-- Claim C5: for a valid day and any integer hours and minutes,
update_time_spent succeeds, overwrites time_spent_minutes with
hours*60 + minutes with negative inputs clamped to 0, and leaves the
completion fields of the day untouched. -/
theorem update_time_spent_overwrites (doc : ProgressDocument) (d : Nat)
    (hours minutes : Int) (hd : 1 ≤ d ∧ d ≤ 21) :
    ∃ doc', update_time_spent d hours minutes doc = Except.ok doc'
      ∧ (getDayProgress doc' d).time_spent_minutes =
          (max hours 0).toNat * 60 + (max minutes 0).toNat
      ∧ (getDayProgress doc' d).completed = (getDayProgress doc d).completed
      ∧ (getDayProgress doc' d).completion_date =
          (getDayProgress doc d).completion_date := by
  have hv : validDay d = true := validDay_true hd.1 hd.2
  refine Exists.intro { doc with progress := alSet doc.progress d (DayProgress.mk (getDayProgress doc d).completed (getDayProgress doc d).completion_date (hours.toNat * 60 + minutes.toNat)) } ⟨?_, ?_, ?_, ?_⟩
  · simp [update_time_spent, hv]
  · rw [getDayProgress_alSet_self]
    simp [toNat_max_zero]
  · rw [getDayProgress_alSet_self]
  · rw [getDayProgress_alSet_self]

theorem update_time_spent_overwrites_witness :
    (getDayProgress ⟨[(3, ⟨false, none, 30⟩)], [], [], [], []⟩ 3).time_spent_minutes = 30
    ∧ update_time_spent 3 1 15 ⟨[(3, ⟨false, none, 30⟩)], [], [], [], []⟩ =
        Except.ok ⟨[(3, ⟨false, none, 75⟩)], [], [], [], []⟩
    ∧ (getDayProgress (⟨[(3, ⟨false, none, 75⟩)], [], [], [], []⟩ : ProgressDocument)
        3).time_spent_minutes = 75 := by
  obtain ⟨doc', h1, h2, h3, h4⟩ :=
    update_time_spent_overwrites ⟨[(3, ⟨false, none, 30⟩)], [], [], [], []⟩ 3 1 15
      (by decide)
  have e : Except.ok (ε := StoreError) doc' =
      Except.ok (⟨[(3, ⟨false, none, 75⟩)], [], [], [], []⟩ : ProgressDocument) :=
    h1.symm.trans (by rfl)
  injection e with e2
  subst e2
  exact ⟨rfl, h1, h2.trans (by decide)⟩

lemma cdGo_spec (doc : ProgressDocument) :
    ∀ fuel d, d + fuel = 22 →
      ((∀ j, d ≤ j → j < 22 → completedOn doc j = true) ∧ cdGo doc d fuel = 22)
      ∨ (d ≤ cdGo doc d fuel ∧ cdGo doc d fuel < 22
          ∧ completedOn doc (cdGo doc d fuel) = false
          ∧ ∀ i, d ≤ i → i < cdGo doc d fuel → completedOn doc i = true) := by
  intro fuel
  induction fuel with
  | zero =>
      intro d hd
      left
      exact ⟨fun j h1 h2 => by omega, rfl⟩
  | succ n ih =>
      intro d hd
      cases hc : completedOn doc d with
      | false =>
        right
        have hval : cdGo doc d (n + 1) = d := by simp [cdGo, hc]
        rw [hval]
        exact ⟨le_refl d, by omega, hc, fun i h1 h2 => by omega⟩
      | true =>
        have hstep : cdGo doc d (n + 1) = cdGo doc (d + 1) n := by simp [cdGo, hc]
        rcases ih (d + 1) (by omega) with ⟨hall, heq⟩ | ⟨h1, h2, h3, h4⟩
        · left
          refine ⟨?_, by rw [hstep, heq]⟩
          intro j hj1 hj2
          rcases Nat.eq_or_lt_of_le hj1 with rfl | hlt
          · exact hc
          · exact hall j hlt hj2
        · right
          rw [hstep]
          refine ⟨by omega, h2, h3, ?_⟩
          intro i hi1 hi2
          rcases Nat.eq_or_lt_of_le hi1 with rfl | hlt
          · exact hc
          · exact h4 i hlt hi2

lemma current_day_cases (doc : ProgressDocument) :
    ((∀ j, 1 ≤ j → j ≤ 21 → completedOn doc j = true) ∧ current_day doc = 22)
    ∨ (1 ≤ current_day doc ∧ current_day doc ≤ 21
        ∧ completedOn doc (current_day doc) = false
        ∧ ∀ i, 1 ≤ i → i < current_day doc → completedOn doc i = true) := by
  have hcd : current_day doc = cdGo doc 1 21 := rfl
  rcases cdGo_spec doc 21 1 (by norm_num) with ⟨hall, heq⟩ | ⟨h1, h2, h3, h4⟩
  · left
    exact ⟨fun j hj1 hj2 => hall j hj1 (by omega), by rw [hcd, heq]⟩
  · right
    rw [hcd]
    exact ⟨h1, by omega, h3, h4⟩

lemma completedOn_mark_eq (doc : ProgressDocument) (today : Int) (N : Nat)
    (c : Bool) (doc' : ProgressDocument)
    (h : mark_day_complete today N c doc = Except.ok doc') (j : Nat) :
    completedOn doc' j = if j = N then c else completedOn doc j := by
  cases hv : validDay N with
  | false =>
      rw [mark_day_complete] at h
      rw [hv] at h
      simp at h
  | true =>
      rw [mark_day_complete] at h
      rw [hv] at h
      simp at h
      subst h
      by_cases hj : j = N
      · subst hj
        unfold completedOn
        rw [getDayProgress_alSet_self]
        simp
      · unfold completedOn
        rw [getDayProgress_alSet_ne _ _ _ _ hj, if_neg hj]

/-- Claim C4: current_day is the lowest day in 1..21 whose completed
flag is false and 22 when all 21 days are complete; marking the
current day N complete with N below 21 advances current_day to the
next incomplete day at or above N+1 (or to 22 when none remains). -/
theorem current_day_advances (doc doc' : ProgressDocument) (today : Int) (N : Nat) :
    ((∀ d ∈ dayRange, completedOn doc d = true) → current_day doc = 22)
    ∧ (∀ j ∈ dayRange, completedOn doc j = false →
         (∀ i ∈ dayRange, i < j → completedOn doc i = true) → current_day doc = j)
    ∧ (current_day doc = N → N < 21 →
        mark_day_complete today N true doc = Except.ok doc' →
          N + 1 ≤ current_day doc'
          ∧ (∀ i, N + 1 ≤ i → i < current_day doc' → completedOn doc' i = true)
          ∧ (current_day doc' ≤ 21 → completedOn doc' (current_day doc') = false)
          ∧ ((∀ d ∈ dayRange, completedOn doc' d = true) → current_day doc' = 22)) := by
  refine ⟨?_, ?_, ?_⟩
  · intro hall
    rcases current_day_cases doc with ⟨_, heq⟩ | ⟨h1, h2, h3, _⟩
    · exact heq
    · have := hall (current_day doc) (mem_dayRange.mpr ⟨h1, h2⟩)
      rw [this] at h3
      cases h3
  · intro j hj hjf hjmin
    obtain ⟨hj1, hj2⟩ := mem_dayRange.mp hj
    rcases current_day_cases doc with ⟨hall, _⟩ | ⟨h1, h2, h3, h4⟩
    · rw [hall j hj1 hj2] at hjf
      cases hjf
    · rcases lt_trichotomy (current_day doc) j with hlt | heq | hgt
      · have := hjmin (current_day doc) (mem_dayRange.mpr ⟨h1, h2⟩) hlt
        rw [this] at h3
        cases h3
      · exact heq
      · rw [h4 j hj1 hgt] at hjf
        cases hjf
  · intro hN hlt hmark
    rcases current_day_cases doc with ⟨_, heq⟩ | ⟨h1, h2, h3, h4⟩
    · omega
    · rw [hN] at h1 h2 h3 h4
      have hcomp := completedOn_mark_eq doc today N true doc' hmark
      have hle : ∀ i, 1 ≤ i → i ≤ N → completedOn doc' i = true := by
        intro i hi1 hi2
        rw [hcomp i]
        by_cases hiN : i = N
        · rw [if_pos hiN]
        · rw [if_neg hiN]
          exact h4 i hi1 (by omega)
      rcases current_day_cases doc' with ⟨hall', heq'⟩ | ⟨h1', h2', h3', h4'⟩
      · refine ⟨by omega, ?_, ?_, fun _ => heq'⟩
        · intro i hi1 hi2
          rw [heq'] at hi2
          exact hall' i (by omega) (by omega)
        · intro hle21
          rw [heq'] at hle21
          omega
      · have hNlt : N < current_day doc' := by
          by_contra hcon
          push_neg at hcon
          have := hle (current_day doc') h1' hcon
          rw [this] at h3'
          cases h3'
        refine ⟨by omega, ?_, fun _ => h3', ?_⟩
        · intro i hi1 hi2
          exact h4' i (by omega) hi2
        · intro hall'
          have := hall' (current_day doc') (mem_dayRange.mpr ⟨h1', h2'⟩)
          rw [this] at h3'
          cases h3'

theorem current_day_advances_witness :
    current_day ⟨[], [], [], [], []⟩ = 1
    ∧ mark_day_complete 0 1 true ⟨[], [], [], [], []⟩ =
        Except.ok ⟨[(1, ⟨true, some 0, 0⟩)], [], [], [], []⟩
    ∧ 2 ≤ current_day ⟨[(1, ⟨true, some 0, 0⟩)], [], [], [], []⟩ := by
  refine ⟨by decide, by rfl, ?_⟩
  exact (current_day_advances ⟨[], [], [], [], []⟩
    ⟨[(1, ⟨true, some 0, 0⟩)], [], [], [], []⟩ 0 1).2.2 (by decide) (by decide)
    (by rfl) |>.1

lemma unmark_mem_eq (doc : ProgressDocument) (d : Nat) (r : String)
    (hv : validDay d = true) (hr : r ∈ resourcesFor doc d) :
    unmark_resource_used d r doc =
      Except.ok { doc with
        resources_used := alSet doc.resources_used d ((resourcesFor doc d).erase r) } := by
  simp [unmark_resource_used, hv, hr]

/-- Claim C6: for a valid day, mark_resource_used is idempotent, the
name appears exactly once afterwards (the per-day list stays free of
duplicates), and the companion removal deletes the name when present
and is a no-op when absent. -/
theorem mark_resource_used_idempotent (doc : ProgressDocument) (d : Nat) (r : String)
    (hd : 1 ≤ d ∧ d ≤ 21) (hcount : (resourcesFor doc d).count r ≤ 1) :
    ∃ doc₁, mark_resource_used d r doc = Except.ok doc₁
      ∧ resources_used_for d doc₁ = Except.ok (resourcesFor doc₁ d)
      ∧ (resourcesFor doc₁ d).count r = 1
      ∧ mark_resource_used d r doc₁ = Except.ok doc₁
      ∧ (r ∉ resourcesFor doc d → unmark_resource_used d r doc = Except.ok doc)
      ∧ (∀ doc₂, unmark_resource_used d r doc₁ = Except.ok doc₂ →
           (resourcesFor doc₂ d).count r = 0) := by
  have hv : validDay d = true := validDay_true hd.1 hd.2
  by_cases hr : r ∈ resourcesFor doc d
  · have hmark : mark_resource_used d r doc = Except.ok doc := by
      simp [mark_resource_used, hv, hr]
    have hc1 : (resourcesFor doc d).count r = 1 := by
      have hpos := List.count_pos_iff.mpr hr
      omega
    refine ⟨doc, hmark, by simp [resources_used_for, hv], hc1, hmark, ?_, ?_⟩
    · intro habs
      exact absurd hr habs
    · intro doc₂ hun
      rw [unmark_mem_eq doc d r hv hr] at hun
      injection hun with h2
      subst h2
      rw [resourcesFor_alSet_self, List.count_erase_self]
      omega
  · have hc0 : (resourcesFor doc d).count r = 0 := List.count_eq_zero.mpr hr
    have hmark : mark_resource_used d r doc = Except.ok { doc with
        resources_used := alSet doc.resources_used d (resourcesFor doc d ++ [r]) } := by
      simp [mark_resource_used, hv, hr]
    have hres : resourcesFor { doc with
        resources_used := alSet doc.resources_used d (resourcesFor doc d ++ [r]) } d =
        resourcesFor doc d ++ [r] := resourcesFor_alSet_self doc d _
    have hmem1 : r ∈ resourcesFor { doc with
        resources_used := alSet doc.resources_used d (resourcesFor doc d ++ [r]) } d := by
      rw [hres]
      simp
    have hc1 : (resourcesFor { doc with
        resources_used := alSet doc.resources_used d (resourcesFor doc d ++ [r]) } d).count r = 1 := by
      rw [hres, List.count_append, hc0]
      simp
    refine ⟨_, hmark, by simp [resources_used_for, hv], hc1, ?_, ?_, ?_⟩
    · simp [mark_resource_used, hv, hmem1]
    · intro _
      simp [unmark_resource_used, hv, hr]
    · intro doc₂ hun
      rw [unmark_mem_eq _ d r hv hmem1] at hun
      injection hun with h2
      subst h2
      rw [resourcesFor_alSet_self, List.count_erase_self]
      omega

theorem mark_resource_used_idempotent_witness :
    mark_resource_used 5 "W3Schools" ⟨[], [], [], [], []⟩ =
      Except.ok ⟨[], [], [], [], [(5, ["W3Schools"])]⟩
    ∧ (resourcesFor (⟨[], [], [], [], [(5, ["W3Schools"])]⟩ : ProgressDocument) 5).count
        "W3Schools" = 1
    ∧ mark_resource_used 5 "W3Schools" ⟨[], [], [], [], [(5, ["W3Schools"])]⟩ =
      Except.ok ⟨[], [], [], [], [(5, ["W3Schools"])]⟩ := by
  obtain ⟨doc₁, h1, h2, h3, h4, h5, h6⟩ :=
    mark_resource_used_idempotent ⟨[], [], [], [], []⟩ 5 "W3Schools" (by decide)
      (by decide)
  have e : Except.ok (ε := StoreError) doc₁ =
      Except.ok (⟨[], [], [], [], [(5, ["W3Schools"])]⟩ : ProgressDocument) :=
    h1.symm.trans (by rfl)
  injection e with e2
  subst e2
  exact ⟨h1, h3, h4⟩

lemma streakGo_le (doc : ProgressDocument) :
    ∀ fuel day, streakGo doc fuel day ≤ fuel := by
  intro fuel
  induction fuel with
  | zero => intro day; simp [streakGo]
  | succ n ih =>
      intro day
      cases hc : hasCompletionOn doc day with
      | false => simp [streakGo, hc]
      | true =>
          have hs : streakGo doc (n + 1) day = streakGo doc n (day - 1) + 1 := by
            simp [streakGo, hc]
          rw [hs]
          have := ih (day - 1)
          omega

lemma streakGo_matched (doc : ProgressDocument) :
    ∀ fuel day j, j < streakGo doc fuel day →
      hasCompletionOn doc (day - j) = true := by
  intro fuel
  induction fuel with
  | zero => intro day j h; simp [streakGo] at h
  | succ n ih =>
      intro day j h
      cases hc : hasCompletionOn doc day with
      | false => simp [streakGo, hc] at h
      | true =>
          have hs : streakGo doc (n + 1) day = streakGo doc n (day - 1) + 1 := by
            simp [streakGo, hc]
          rw [hs] at h
          match j with
          | 0 => simpa using hc
          | j' + 1 =>
              have hrec := ih (day - 1) j' (by omega)
              have e : day - 1 - (j' : Int) = day - ((j' : Nat) + 1 : Nat) := by
                push_cast
                ring
              rw [e] at hrec
              exact hrec

lemma streakGo_stopped (doc : ProgressDocument) :
    ∀ fuel day, streakGo doc fuel day < fuel →
      hasCompletionOn doc (day - streakGo doc fuel day) = false := by
  intro fuel
  induction fuel with
  | zero => intro day h; omega
  | succ n ih =>
      intro day h
      cases hc : hasCompletionOn doc day with
      | false =>
          have hs : streakGo doc (n + 1) day = 0 := by simp [streakGo, hc]
          rw [hs]
          simpa using hc
      | true =>
          have hs : streakGo doc (n + 1) day = streakGo doc n (day - 1) + 1 := by
            simp [streakGo, hc]
          rw [hs] at h ⊢
          have hrec := ih (day - 1) (by omega)
          have e : day - 1 - (streakGo doc n (day - 1) : Int) =
              day - ((streakGo doc n (day - 1) + 1 : Nat) : Int) := by
            push_cast
            ring
          rw [e] at hrec
          exact hrec

lemma has_mem_completionDates (doc : ProgressDocument) (day : Int)
    (h : hasCompletionOn doc day = true) : day ∈ completionDates doc := by
  rw [hasCompletionOn] at h
  simp only [List.contains] at h
  exact List.elem_iff.mp h

lemma learning_streak_lt (doc : ProgressDocument) (today : Int) :
    learning_streak doc today < (completionDates doc).length + 1 := by
  by_contra hcon
  push_neg at hcon
  have hle := streakGo_le doc ((completionDates doc).length + 1) today
  have heq : streakGo doc ((completionDates doc).length + 1) today =
      (completionDates doc).length + 1 := by
    rw [learning_streak] at hcon
    omega
  have hmem : ∀ j : Nat, j < (completionDates doc).length + 1 →
      (today - j) ∈ completionDates doc := by
    intro j hj
    exact has_mem_completionDates doc _
      (streakGo_matched doc ((completionDates doc).length + 1) today j (by omega))
  have hinj : Function.Injective (fun k : Nat => today - (k : Int)) := by
    intro a b hab
    simp only [sub_right_inj, Int.natCast_inj] at hab
    exact hab
  have hsub : (Finset.range ((completionDates doc).length + 1)).image
      (fun k : Nat => today - (k : Int)) ⊆ (completionDates doc).toFinset := by
    intro x hx
    rw [Finset.mem_image] at hx
    obtain ⟨k, hk, rfl⟩ := hx
    rw [List.mem_toFinset]
    exact hmem k (Finset.mem_range.mp hk)
  have hcard := Finset.card_le_card hsub
  rw [Finset.card_image_of_injective _ hinj, Finset.card_range] at hcard
  have htf := List.toFinset_card_le (completionDates doc)
  omega

/-- Claim C7: learning_streak counts consecutive calendar days walking
backward from today with some matching completion_date, stopping at
the first date with no match; with matches for today and yesterday but
not the day before it is 2, and with no recorded completion dates it
is 0. -/
theorem learning_streak_correct (doc : ProgressDocument) (today : Int) :
    (∀ j : Nat, j < learning_streak doc today →
        hasCompletionOn doc (today - j) = true)
    ∧ hasCompletionOn doc (today - learning_streak doc today) = false
    ∧ (hasCompletionOn doc today = true → hasCompletionOn doc (today - 1) = true →
        hasCompletionOn doc (today - 2) = false → learning_streak doc today = 2)
    ∧ (completionDates doc = [] → learning_streak doc today = 0) := by
  have hmat : ∀ j : Nat, j < learning_streak doc today →
      hasCompletionOn doc (today - (j : Int)) = true :=
    streakGo_matched doc ((completionDates doc).length + 1) today
  have hstop : hasCompletionOn doc (today - (learning_streak doc today : Int)) = false :=
    streakGo_stopped doc ((completionDates doc).length + 1) today
      (learning_streak_lt doc today)
  refine ⟨hmat, hstop, ?_, ?_⟩
  · intro h0 h1 h2
    rcases Nat.lt_or_ge (learning_streak doc today) 3 with hlt | hge
    · interval_cases hs : learning_streak doc today
      · norm_num at hstop
        rw [h0] at hstop
        cases hstop
      · norm_num at hstop
        rw [h1] at hstop
        cases hstop
      · rfl
    · have h3 := hmat 2 (by omega)
      norm_num at h3
      rw [h3] at h2
      cases h2
  · intro hempty
    by_contra hne
    have hpos : 0 < learning_streak doc today := Nat.pos_of_ne_zero hne
    have h4 := hmat 0 hpos
    rw [hasCompletionOn, hempty] at h4
    simp at h4

theorem learning_streak_correct_witness :
    learning_streak
      ⟨[(1, ⟨true, some 100, 0⟩), (2, ⟨true, some 99, 0⟩)], [], [], [], []⟩ 100 = 2
    ∧ learning_streak ⟨[], [], [], [], []⟩ 100 = 0 :=
  ⟨(learning_streak_correct
      ⟨[(1, ⟨true, some 100, 0⟩), (2, ⟨true, some 99, 0⟩)], [], [], [], []⟩ 100).2.2.1
      (by decide) (by decide) (by decide),
   (learning_streak_correct ⟨[], [], [], [], []⟩ 100).2.2.2 (by decide)⟩

end PyTracker
